import Mathlib

/-!
GoBGP exporter: the peer collector and the RIB collector.

A shallow embedding of `pkg/gobgp_exporter/collect_peers.go` and
`pkg/gobgp_exporter/collect_rib.go`.

Conventions of the embedding.

* The session handle (`RouterNode`) is passed explicitly; a collector maps a
  node to an `Outcome`, which is either a normal return or a Go run-time panic,
  each with the node as it is at that moment.
* The RPC daemon is a parameter (`GobgpClient`).  A response stream is the list
  of the results its `Recv()` yields before it yields `io.EOF`.
* The enum tables and constants of the `gobgpapi` package are parameters
  (`Gobgpapi`).  Go leaves the iteration order of a map unspecified: the lists
  give the order in which a `range` statement visits the map, and every theorem
  holds for all lists.
* The value of a sample is the number that `float64(x)` denotes. The conversion
  of a `uint64` rounds to 53 bits of precision (`float64OfUint64`); the other
  operands (`uint32` fields, `int32` enum codes, the 0/1 flags, the length of a
  slice held in memory) are below 2^53 by their type, where the conversion is
  exact.
* Protobuf messages that the source reaches through a pointer are optional:
  the response that `Recv()` hands back (nil whenever `Recv()` reports an
  error), `ListPeerResponse.Peer`, `Peer.State` and `AfiSafi.State`. Reading a
  field through a nil pointer panics. The elements of the repeated field
  `Peer.AfiSafis` are never nil in a decoded message.
-/

namespace GobgpExporter

/-! ## Go level notions -/

/-- Go `error` value other than `io.EOF`, with its message. -/
structure GoError where
  msg : String
  deriving DecidableEq

/-- Run-time panics of the Go program that the collectors can raise. -/
inductive GoPanic where
  | nilDereference
  deriving DecidableEq

/-- Two's complement addition on `uint64`, the `+=` of the source on `uint64` operands. -/
def uint64Add (a b : Nat) : Nat := (a + b) % 2 ^ 64

/-- Conversion `float64(x)` of a `uint64`, as the number the result denotes: `x` is
rounded to 53 significant bits, to nearest and ties to even. `e` is the number of bits
that do not fit (at most 11 for a `uint64`). -/
def float64OfUint64 (x : Nat) : Nat :=
  let e := ((List.range 11).filter (fun i => decide (2 ^ (53 + i) ≤ x))).length
  if e = 0 then x
  else
    let q := x / 2 ^ e
    let r := x % 2 ^ e
    let half := 2 ^ (e - 1)
    let q := if half < r ∨ (r = half ∧ q % 2 = 1) then q + 1 else q
    q * 2 ^ e

/-- Result pair `(response, err)` of one `Recv()` call that did not yield `io.EOF`:
`resp` is the returned pointer (`none` is nil) and `err` the returned error (`none` is nil). -/
structure RecvResult (α : Type) where
  resp : Option α
  err : Option GoError
  deriving DecidableEq

/-- Result of a `Recv()` that delivers the record `a` without error. -/
def RecvResult.msg {α : Type} (a : α) : RecvResult α := ⟨some a, none⟩

/-- Response stream: the results of the successive `Recv()` calls; once the list is
exhausted `Recv()` yields `io.EOF`. -/
abbrev RecvStream (α : Type) := List (RecvResult α)

/-- ASCII version of `strings.ToLower`, which is what Go computes on the ASCII
identifiers of protobuf enum tables. -/
def strings_ToLower (s : String) : String := String.mk (s.data.map Char.toLower)

/-! ## The `gobgpapi` messages read by the collectors -/

/-- Message `gobgpapi.AfiSafiState`, the three `uint64` route counters. -/
structure AfiSafiState where
  Received : Nat
  Accepted : Nat
  Advertised : Nat
  deriving DecidableEq

/-- Message `gobgpapi.AfiSafi`; `State` is a pointer, `none` when it is nil. -/
structure AfiSafi where
  State : Option AfiSafiState
  deriving DecidableEq

/-- Message `gobgpapi.PeerState`, the fields the collector reads. The two enum fields
are `int32` codes, the numeric fields are `uint32`. -/
structure PeerState where
  NeighborAddress : String
  SessionState : Int
  AdminState : Int
  PeerAs : Nat
  LocalAs : Nat
  OutQ : Nat
  Flops : Nat
  SendCommunity : Nat
  RemovePrivateAs : Nat
  AuthPassword : String
  PeerType : Nat
  deriving DecidableEq

/-- Message `gobgpapi.Peer`; `State` is a pointer, `none` when it is nil. -/
structure Peer where
  State : Option PeerState
  AfiSafis : List AfiSafi
  deriving DecidableEq

/-- Message `gobgpapi.ListPeerRequest`. -/
structure ListPeerRequest where
  EnableAdvertised : Bool
  Address : String
  deriving DecidableEq

/-- Message `gobgpapi.ListPeerResponse`; `Peer` is a pointer, `none` when it is nil. -/
structure ListPeerResponse where
  Peer : Option Peer
  deriving DecidableEq

/-- Message `gobgpapi.Family`. -/
structure Family where
  Afi : Int
  Safi : Int
  deriving DecidableEq

/-- Message `gobgpapi.ListPathRequest`. -/
structure ListPathRequest where
  TableType : Int
  Family : Family
  deriving DecidableEq

/-- Message `gobgpapi.Destination`; the collector only counts destinations. -/
structure Destination where
  Prefix : String
  deriving DecidableEq

/-- Message `gobgpapi.ListPathResponse`. -/
structure ListPathResponse where
  Destination : Destination
  deriving DecidableEq

/-- Enum tables and constants of the `gobgpapi` package that the collectors use.
`TableType_name`, `Family_Safi_name` and `Family_Afi_value` list the values of the map of
that name in the order a `range` statement visits them; `Family_Safi_value` is the map
lookup `Family_Safi_value[name]`. -/
structure Gobgpapi where
  TableType_name : List String
  Family_Safi_name : List String
  Family_Afi_value : List Int
  Family_Safi_value : String → Int
  TableType_GLOBAL : Int
  TableType_LOCAL : Int
  PeerState_ESTABLISHED : Int

/-- RPC client `n.client.Gobgp`. `ListPeer` and `ListPath` either fail or open a
stream; the answer to a `ListPath` request may depend on how many `ListPath` requests
the session has issued before it. -/
structure GobgpClient where
  ListPeer : ListPeerRequest → Except GoError (RecvStream ListPeerResponse)
  ListPath : Nat → ListPathRequest → Except GoError (RecvStream ListPathResponse)

/-! ## Metrics and the session handle -/

/-- Metric descriptors the two collectors pass to `prometheus.MustNewConstMetric`. -/
inductive Desc where
  | routerPeers
  | routerPeer
  | routerPeerAsn
  | routerPeerAdminState
  | routerPeerSessionState
  | routerPeerLocalAsn
  | bgpPeerReceivedRoutes
  | bgpPeerAcceptedRoutes
  | bgpPeerAdvertisedRoutes
  | bgpPeerOutQueue
  | bgpPeerFlops
  | bgpPeerSendCommunityFlag
  | bgpPeerRemovePrivateAsFlag
  | bgpPeerPasswodSetFlag
  | bgpPeerType
  | routerRibDestinations
  deriving DecidableEq

/-- Metric sample, a `prometheus.Metric` built with value type `GaugeValue`: the
descriptor, the number that the `float64` value denotes (always an integer here), and
the label values in order. -/
structure Metric where
  desc : Desc
  value : Int
  labelValues : List String
  deriving DecidableEq

/-- Call `prometheus.MustNewConstMetric(desc, prometheus.GaugeValue, value, labelValues...)`,
the number of label values being the one the descriptor declares. -/
def MustNewConstMetric (desc : Desc) (value : Int) (labelValues : List String) : Metric :=
  ⟨desc, value, labelValues⟩

/-- Session handle `RouterNode`: the fields the collectors read and write. The two
allow-sets are the `map[string]bool` fields, as their entries. `listPathSent` is the log
of the `ListPath` requests issued on `n.client` so far. -/
structure RouterNode where
  connected : Bool
  resourceTypes : List (String × Bool)
  addressFamilies : List (String × Bool)
  errors : Nat
  metrics : List Metric
  listPathSent : List ListPathRequest
  deriving DecidableEq

/-- Modelled from the spec: IncrementErrorCounter is a method of RouterNode that is not
in the two source files; the spec says it increments the session's error counter. -/
def RouterNode.IncrementErrorCounter (n : RouterNode) : RouterNode :=
  { n with errors := n.errors + 1 }

/-- Statement `n.metrics = append(n.metrics, m)`. -/
def RouterNode.appendMetric (n : RouterNode) (m : Metric) : RouterNode :=
  { n with metrics := n.metrics ++ [m] }

/-- Map index expression `_, exists := m[key]`. -/
def mapExists (m : List (String × Bool)) (key : String) : Bool :=
  (m.lookup key).isSome

/-- How a collector call ends: it returns, or it panics; in both cases with the node as
it is at that moment. -/
inductive Outcome where
  | returned (n : RouterNode)
  | panicked (p : GoPanic) (n : RouterNode)
  deriving DecidableEq

/-- Node at the end of a collector call. -/
def Outcome.node : Outcome → RouterNode
  | .returned n => n
  | .panicked _ n => n

/-- Statement `for _, x := range xs { body }` over the node, where the body may panic. -/
def forRange {α : Type} (xs : List α) (body : RouterNode → α → Outcome)
    (n : RouterNode) : Outcome :=
  match xs with
  | [] => .returned n
  | x :: rest =>
    match body n x with
    | .returned n1 => forRange rest body n1
    | .panicked p n1 => .panicked p n1

/-! ## `collect_peers.go` -/

/-- Loop of `counter` on the accumulators `(accepted, received, advertised)`: each pass
reads the three counters through the pointer `afisafi.State` and panics when it is nil. -/
def counterLoop : List AfiSafi → Nat × Nat × Nat → Except GoPanic (Nat × Nat × Nat)
  | [], acc => .ok acc
  | afisafi :: rest, acc =>
    match afisafi.State with
    | none => .error .nilDereference
    | some state =>
      counterLoop rest (uint64Add acc.1 state.Accepted, uint64Add acc.2.1 state.Received,
        uint64Add acc.2.2 state.Advertised)

/-- Function `counter`: returns `(received, accepted, advertised, err)` with `err` nil,
unless the loop panics. -/
def counter (p : Peer) : Except GoPanic (Nat × Nat × Nat × Option GoError) :=
  match counterLoop p.AfiSafis (0, 0, 0) with
  | .error e => .error e
  | .ok acc => .ok (acc.2.1, acc.1, acc.2.2, none)

/-- Drain loop of `GetPeers`: `Recv()` until `io.EOF`, appending `_resp.Peer`; reading
the field of a nil `_resp` panics. -/
def recvPeers : RecvStream ListPeerResponse → List (Option Peer) →
    Except GoPanic (List (Option Peer))
  | [], peers => .ok peers
  | r :: rest, peers =>
    match r.resp with
    | none => .error .nilDereference
    | some _resp => recvPeers rest (peers ++ [_resp.Peer])

/-- Body of the loop `for _, p := range peerResponse.Peers` of `GetPeers`. It panics on
`p.State.NeighborAddress` when `p` or `p.State` is nil, and when `counter(p)` panics. -/
def peerBody (api : Gobgpapi) (n : RouterNode) (p : Option Peer) : Outcome :=
  match p with
  | none => .panicked .nilDereference n
  | some p =>
    match p.State with
    | none => .panicked .nilDereference n
    | some state =>
      let peerRouterID := state.NeighborAddress
      let n :=
        if state.SessionState = api.PeerState_ESTABLISHED then
          n.appendMetric (MustNewConstMetric .routerPeer 1 [peerRouterID])
        else
          n.appendMetric (MustNewConstMetric .routerPeer 0 [peerRouterID])
      match counter p with
      | .error e => .panicked e n
      | .ok (recieved, accepted, advertised, _err) =>
        let n := n.appendMetric (MustNewConstMetric .routerPeerAsn state.PeerAs [peerRouterID])
        let n := n.appendMetric
          (MustNewConstMetric .routerPeerAdminState state.AdminState [peerRouterID])
        let n := n.appendMetric
          (MustNewConstMetric .routerPeerSessionState state.SessionState [peerRouterID])
        let n := n.appendMetric
          (MustNewConstMetric .routerPeerLocalAsn state.LocalAs [peerRouterID])
        let n := n.appendMetric
          (MustNewConstMetric .bgpPeerReceivedRoutes (float64OfUint64 recieved) [peerRouterID])
        let n := n.appendMetric
          (MustNewConstMetric .bgpPeerAcceptedRoutes (float64OfUint64 accepted) [peerRouterID])
        let n := n.appendMetric
          (MustNewConstMetric .bgpPeerAdvertisedRoutes (float64OfUint64 advertised)
            [peerRouterID])
        let n := n.appendMetric (MustNewConstMetric .bgpPeerOutQueue state.OutQ [peerRouterID])
        let n := n.appendMetric (MustNewConstMetric .bgpPeerFlops state.Flops [peerRouterID])
        let n := n.appendMetric
          (MustNewConstMetric .bgpPeerSendCommunityFlag state.SendCommunity [peerRouterID])
        let n := n.appendMetric
          (MustNewConstMetric .bgpPeerRemovePrivateAsFlag state.RemovePrivateAs [peerRouterID])
        let passwordSetFlag : Int := if state.AuthPassword ≠ "" then 1 else 0
        let n := n.appendMetric
          (MustNewConstMetric .bgpPeerPasswodSetFlag passwordSetFlag [peerRouterID])
        .returned (n.appendMetric (MustNewConstMetric .bgpPeerType state.PeerType [peerRouterID]))

/-- Method `GetPeers`. -/
def GetPeers (api : Gobgpapi) (gobgp : GobgpClient) (n : RouterNode) : Outcome :=
  let peerRequest : ListPeerRequest := ⟨false, ""⟩
  match gobgp.ListPeer peerRequest with
  | .error _ => .returned n.IncrementErrorCounter
  | .ok resp =>
    match recvPeers resp [] with
    | .error p => .panicked p n
    | .ok peers =>
      let n := n.appendMetric (MustNewConstMetric .routerPeers peers.length [])
      forRange peers (peerBody api) n

/-! ## `collect_rib.go` -/

/-- Drain loop of `GetRibCounters`: `Recv()` until `io.EOF`; an error other than
`io.EOF` is logged, then `_path.Destination` is appended; reading the field of a nil
`_path` panics. -/
def recvPaths : RecvStream ListPathResponse → List Destination →
    Except GoPanic (List Destination)
  | [], rib => .ok rib
  | r :: rest, rib =>
    match r.resp with
    | none => .error .nilDereference
    | some _path => recvPaths rest (rib ++ [_path.Destination])

/-- Body of the loop `for _, addressFamilyValue := range gobgpapi.Family_Afi_value`. -/
def ribAfiBody (api : Gobgpapi) (gobgp : GobgpClient)
    (resourceTypeName secondaryAddressFamilyName : String)
    (n : RouterNode) (addressFamilyValue : Int) : Outcome :=
  let resourceType : Option Int :=
    if resourceTypeName = "GLOBAL" then some api.TableType_GLOBAL
    else if resourceTypeName = "LOCAL" then some api.TableType_LOCAL
    else none
  match resourceType with
  | none => .returned n
  | some resourceType =>
    let family : Family :=
      ⟨addressFamilyValue, api.Family_Safi_value secondaryAddressFamilyName⟩
    let ribRequest : ListPathRequest := ⟨resourceType, family⟩
    let reply := gobgp.ListPath n.listPathSent.length ribRequest
    let n := { n with listPathSent := n.listPathSent ++ [ribRequest] }
    match reply with
    | .error _ => .returned n.IncrementErrorCounter
    | .ok pathStream =>
      match recvPaths pathStream [] with
      | .error p => .panicked p n
      | .ok rib =>
        .returned (n.appendMetric (MustNewConstMetric .routerRibDestinations rib.length
          [strings_ToLower resourceTypeName, strings_ToLower secondaryAddressFamilyName]))

/-- Body of the loop
`for _, secondaryAddressFamilyName := range gobgpapi.Family_Safi_name`. -/
def ribSafiBody (api : Gobgpapi) (gobgp : GobgpClient) (resourceTypeName : String)
    (n : RouterNode) (secondaryAddressFamilyName : String) : Outcome :=
  if !n.connected then .returned n
  else if !mapExists n.resourceTypes resourceTypeName then .returned n
  else if !mapExists n.addressFamilies secondaryAddressFamilyName then .returned n
  else
    forRange api.Family_Afi_value
      (ribAfiBody api gobgp resourceTypeName secondaryAddressFamilyName) n

/-- Method `GetRibCounters`. -/
def GetRibCounters (api : Gobgpapi) (gobgp : GobgpClient) (n : RouterNode) : Outcome :=
  if n.connected == false then .returned n
  else
    forRange api.TableType_name
      (fun n resourceTypeName =>
        forRange api.Family_Safi_name (ribSafiBody api gobgp resourceTypeName) n)
      n

/-! ## Derived notions used to state the properties -/

/-- Peer record in which no pointer is nil: the peer state and the state of each of
its address-family entries. -/
structure PeerRecord where
  State : PeerState
  AfiSafis : List AfiSafiState
  deriving DecidableEq

/-- The `gobgpapi.Peer` message of a peer record. -/
def PeerRecord.peer (fp : PeerRecord) : Peer :=
  ⟨some fp.State, fp.AfiSafis.map (fun st => ⟨some st⟩)⟩

/-- The `gobgpapi.ListPeerResponse` message that carries a peer record. -/
def PeerRecord.response (fp : PeerRecord) : ListPeerResponse := ⟨some fp.peer⟩

/-- Sum of one sub-counter over the address-family entries of a peer. -/
def sumOver (f : AfiSafiState → Nat) (fp : PeerRecord) : Nat :=
  (fp.AfiSafis.map f).sum

/-- Samples that one pass of the loop of `GetPeers` appends for a peer record, in order. -/
def peerSamples (api : Gobgpapi) (fp : PeerRecord) : List Metric :=
  let peerRouterID := fp.State.NeighborAddress
  [ MustNewConstMetric .routerPeer
      (if fp.State.SessionState = api.PeerState_ESTABLISHED then 1 else 0) [peerRouterID],
    MustNewConstMetric .routerPeerAsn fp.State.PeerAs [peerRouterID],
    MustNewConstMetric .routerPeerAdminState fp.State.AdminState [peerRouterID],
    MustNewConstMetric .routerPeerSessionState fp.State.SessionState [peerRouterID],
    MustNewConstMetric .routerPeerLocalAsn fp.State.LocalAs [peerRouterID],
    MustNewConstMetric .bgpPeerReceivedRoutes
      (float64OfUint64 (sumOver (fun st => st.Received) fp % 2 ^ 64)) [peerRouterID],
    MustNewConstMetric .bgpPeerAcceptedRoutes
      (float64OfUint64 (sumOver (fun st => st.Accepted) fp % 2 ^ 64)) [peerRouterID],
    MustNewConstMetric .bgpPeerAdvertisedRoutes
      (float64OfUint64 (sumOver (fun st => st.Advertised) fp % 2 ^ 64)) [peerRouterID],
    MustNewConstMetric .bgpPeerOutQueue fp.State.OutQ [peerRouterID],
    MustNewConstMetric .bgpPeerFlops fp.State.Flops [peerRouterID],
    MustNewConstMetric .bgpPeerSendCommunityFlag fp.State.SendCommunity [peerRouterID],
    MustNewConstMetric .bgpPeerRemovePrivateAsFlag fp.State.RemovePrivateAs [peerRouterID],
    MustNewConstMetric .bgpPeerPasswodSetFlag
      (if fp.State.AuthPassword ≠ "" then 1 else 0) [peerRouterID],
    MustNewConstMetric .bgpPeerType fp.State.PeerType [peerRouterID] ]

/-- The request that `GetPeers` sends. -/
def peerRequest : ListPeerRequest := ⟨false, ""⟩

/-- Peer record with the auth password replaced. -/
def PeerRecord.withPassword (fp : PeerRecord) (pw : String) : PeerRecord :=
  { fp with State := { fp.State with AuthPassword := pw } }

/-- The selector (table-type name, SAFI name) passes the checks of `GetRibCounters` on
the node: connected, both names in their allow-set, table type GLOBAL or LOCAL. -/
def enabled (n : RouterNode) (t s : String) : Bool :=
  n.connected && mapExists n.resourceTypes t && mapExists n.addressFamilies s &&
    (decide (t = "GLOBAL") || decide (t = "LOCAL"))

/-- The (table-type name, SAFI name, AFI value) combinations that pass the checks, in
the order the three nested loops visit them. -/
def enabledCombos (api : Gobgpapi) (n : RouterNode) : List (String × String × Int) :=
  api.TableType_name.flatMap fun t =>
    api.Family_Safi_name.flatMap fun s =>
      if enabled n t s then api.Family_Afi_value.map (fun a => (t, s, a)) else []

/-- The ListPath request for a combination with a supported table type. -/
def ribRequestOf (api : Gobgpapi) (c : String × String × Int) : ListPathRequest :=
  ⟨if c.1 = "GLOBAL" then api.TableType_GLOBAL else api.TableType_LOCAL,
   ⟨c.2.2, api.Family_Safi_value c.2.1⟩⟩

/-- The replies of the daemon to the requests for the combinations `cs` issued in this
order, the first of them being request number `k` of the session. -/
def repliesFrom (api : Gobgpapi) (gobgp : GobgpClient) :
    Nat → List (String × String × Int) →
      List ((String × String × Int) × Except GoError (RecvStream ListPathResponse))
  | _, [] => []
  | k, c :: cs => (c, gobgp.ListPath k (ribRequestOf api c)) :: repliesFrom api gobgp (k + 1) cs

/-- The request failed. -/
def isFailure {α : Type} : Except GoError α → Bool
  | .error _ => true
  | .ok _ => false

/-- The RIB-size sample for a combination whose request succeeded with the stream
`st`, none for a failed request. -/
def ribSampleOf (cr : (String × String × Int) × Except GoError (RecvStream ListPathResponse)) :
    Option Metric :=
  match cr.2 with
  | .error _ => none
  | .ok st => some ⟨.routerRibDestinations, st.length,
      [strings_ToLower cr.1.1, strings_ToLower cr.1.2.1]⟩

/-- The three configuration fields that `GetRibCounters` reads are the same in both nodes. -/
def sameConfig (a b : RouterNode) : Prop :=
  a.connected = b.connected ∧ a.resourceTypes = b.resourceTypes ∧
    a.addressFamilies = b.addressFamilies

/-- Body of the innermost loop of `GetRibCounters` on a combination. -/
def ribComboBody (api : Gobgpapi) (gobgp : GobgpClient) (n : RouterNode)
    (c : String × String × Int) : Outcome :=
  ribAfiBody api gobgp c.1 c.2.1 n c.2.2

/-! ## Example data -/

/-- Example tables of the gobgpapi package, after the scenario of the specification:
session states are numbered 0 to 5 with established = 5, the table types are GLOBAL and
LOCAL followed by three unsupported ones, the address families are ipv4-unicast and
ipv6-unicast, and there is one AFI value. -/
def specApi : Gobgpapi where
  TableType_name := ["GLOBAL", "LOCAL", "ADJ_IN", "ADJ_OUT", "VRF"]
  Family_Safi_name := ["ipv4-unicast", "ipv6-unicast"]
  Family_Afi_value := [1]
  Family_Safi_value := fun s =>
    if s = "ipv4-unicast" then 1 else if s = "ipv6-unicast" then 2 else 0
  TableType_GLOBAL := 0
  TableType_LOCAL := 1
  PeerState_ESTABLISHED := 5

/-- Connected session with no samples yet, both supported table types and the
ipv4-unicast family enabled. -/
def node0 : RouterNode :=
  ⟨true, [("GLOBAL", true), ("LOCAL", true)], [("ipv4-unicast", true)], 0, [], []⟩

/-- First peer of the spec's scenario: established, ASN 65001, one address-family
entry with received 10, accepted 8, advertised 5; a password is configured. -/
def peerA : PeerRecord :=
  ⟨⟨"192.0.2.1", 5, 0, 65001, 64512, 0, 0, 0, 0, "s3cret", 0⟩, [⟨10, 8, 5⟩]⟩

/-- Second peer of the spec's scenario: active, ASN 65002, no address-family entry,
no password. -/
def peerB : PeerRecord :=
  ⟨⟨"192.0.2.2", 2, 0, 65002, 64512, 0, 0, 0, 0, "", 0⟩, []⟩

/-- Established peer that has received 2^53 + 1 routes in one address family. -/
def peerBig : PeerRecord :=
  ⟨⟨"192.0.2.3", 5, 0, 65003, 64512, 0, 0, 0, 0, "", 0⟩, [⟨9007199254740993, 0, 0⟩]⟩

/-- Established peer with a password, one of whose address-family entries comes without
its State message. -/
def peerNoEntryState : Peer :=
  ⟨some ⟨"192.0.2.9", 5, 0, 65009, 64512, 0, 0, 0, 0, "s3cret", 0⟩, [⟨none⟩]⟩

/-- Daemon whose peer stream delivers the given records and then end-of-data, and
whose ListPath requests all fail. -/
def peersClient (rs : List ListPeerResponse) : GobgpClient :=
  ⟨fun _ => .ok (rs.map RecvResult.msg), fun _ _ => .error ⟨"unavailable"⟩⟩

/-- Daemon whose ListPeer request fails. -/
def downClient : GobgpClient :=
  ⟨fun _ => .error ⟨"connection refused"⟩, fun _ _ => .error ⟨"connection refused"⟩⟩

/-- Example tables of the gobgpapi package with two of the AFI values that the
daemon's API declares (IP = 1 and IP6 = 2) and the unicast SAFI. -/
def twoAfiApi : Gobgpapi where
  TableType_name := ["GLOBAL", "LOCAL", "ADJ_IN", "ADJ_OUT", "VRF"]
  Family_Safi_name := ["SAFI_UNICAST"]
  Family_Afi_value := [1, 2]
  Family_Safi_value := fun s => if s = "SAFI_UNICAST" then 1 else 0
  TableType_GLOBAL := 0
  TableType_LOCAL := 1
  PeerState_ESTABLISHED := 5

/-- Connected session with no samples yet, the GLOBAL table and the unicast SAFI enabled. -/
def node1 : RouterNode :=
  ⟨true, [("GLOBAL", true)], [("SAFI_UNICAST", true)], 0, [], []⟩

/-- Session like `node0` whose connectivity flag is false. -/
def nodeDown : RouterNode :=
  ⟨false, [("GLOBAL", true), ("LOCAL", true)], [("ipv4-unicast", true)], 0, [], []⟩

/-- Daemon of the spec's scenario: a path query on the GLOBAL table delivers three
destinations, a path query on any other table fails with a transport error. -/
def ribClient : GobgpClient :=
  ⟨fun _ => .error ⟨"unavailable"⟩,
   fun _ req =>
     if req.TableType = 0 then
       .ok [RecvResult.msg ⟨⟨"10.0.0.0/8"⟩⟩, RecvResult.msg ⟨⟨"172.16.0.0/12"⟩⟩,
            RecvResult.msg ⟨⟨"192.168.0.0/16"⟩⟩]
     else .error ⟨"transport error"⟩⟩

/-- Daemon whose path queries all succeed with an empty table. -/
def emptyRibClient : GobgpClient :=
  ⟨fun _ => .ok [], fun _ _ => .ok []⟩

/-- Daemon whose streams report an error other than end-of-data on the first `Recv()`,
which returns a nil response with it, and then end-of-data. -/
def recvErrorClient : GobgpClient :=
  ⟨fun _ => .ok [⟨none, some ⟨"rpc error: code = Unavailable"⟩⟩],
   fun _ _ => .ok [⟨none, some ⟨"rpc error: code = Unavailable"⟩⟩]⟩

/-- Rewriting of passwords used in the example: every configured password becomes "x". -/
def maskPassword (s : String) : String := if s = "" then "" else "x"

/-! ## Properties of the loop statement -/

theorem forRange_append {α : Type} (xs ys : List α) (body : RouterNode → α → Outcome)
    (n : RouterNode) :
    forRange (xs ++ ys) body n =
      match forRange xs body n with
      | .returned n1 => forRange ys body n1
      | .panicked p n1 => .panicked p n1 := by
  induction xs generalizing n with
  | nil => simp [forRange]
  | cons x xs ih =>
    simp only [List.cons_append, forRange]
    cases body n x with
    | returned n1 => simp [ih]
    | panicked p n1 => simp

theorem forRange_map {α β : Type} (f : α → β) (xs : List α) (body : RouterNode → β → Outcome)
    (n : RouterNode) :
    forRange (xs.map f) body n = forRange xs (fun n x => body n (f x)) n := by
  induction xs generalizing n with
  | nil => simp [forRange]
  | cons x xs ih =>
    simp only [List.map_cons, forRange]
    cases body n (f x) with
    | returned n1 => simp [ih]
    | panicked p n1 => simp

theorem forRange_skip {α : Type} (xs : List α) (body : RouterNode → α → Outcome)
    (n : RouterNode) (h : ∀ x ∈ xs, body n x = .returned n) :
    forRange xs body n = .returned n := by
  induction xs with
  | nil => simp [forRange]
  | cons x xs ih =>
    simp only [forRange, h x (List.mem_cons_self x xs)]
    exact ih fun y hy => h y (List.mem_cons_of_mem x hy)

theorem forRange_inv {α : Type} (I : RouterNode → Prop) (xs : List α)
    (body : RouterNode → α → Outcome) (hI : ∀ n x, I n → I (body n x).node)
    (n : RouterNode) (h : I n) : I (forRange xs body n).node := by
  induction xs generalizing n with
  | nil => simpa [forRange, Outcome.node] using h
  | cons x xs ih =>
    simp only [forRange]
    have hx := hI n x h
    cases hb : body n x with
    | returned n1 =>
      rw [hb] at hx
      exact ih n1 hx
    | panicked p n1 =>
      rw [hb] at hx
      exact hx

theorem forRange_flatMap {α β : Type} (I : RouterNode → Prop) (xs : List α)
    (g : α → List β) (body : RouterNode → β → Outcome) (F : RouterNode → α → Outcome)
    (hF : ∀ n x, I n → F n x = forRange (g x) body n)
    (hI : ∀ n y, I n → I (body n y).node) (n : RouterNode) (h : I n) :
    forRange xs F n = forRange (xs.flatMap g) body n := by
  induction xs generalizing n with
  | nil => simp [forRange]
  | cons x xs ih =>
    simp only [List.flatMap_cons, forRange_append, forRange, hF n x h]
    have hx := forRange_inv I (g x) body hI n h
    cases hb : forRange (g x) body n with
    | returned n1 =>
      rw [hb] at hx
      exact ih n1 hx
    | panicked p n1 => rfl

theorem forRange_inv_mem {α : Type} (I : RouterNode → Prop) (xs : List α)
    (body : RouterNode → α → Outcome) (hI : ∀ n x, x ∈ xs → I n → I (body n x).node)
    (n : RouterNode) (h : I n) : I (forRange xs body n).node := by
  induction xs generalizing n with
  | nil => simpa [forRange, Outcome.node] using h
  | cons x xs ih =>
    simp only [forRange]
    have hx := hI n x (List.mem_cons_self x xs) h
    cases hb : body n x with
    | returned n1 =>
      rw [hb] at hx
      exact ih (fun m y hy hm => hI m y (List.mem_cons_of_mem x hy) hm) n1 hx
    | panicked p n1 =>
      rw [hb] at hx
      exact hx

/-! ## Properties of `collect_peers.go` -/

theorem uint64Add_lt (a b : Nat) : uint64Add a b < 2 ^ 64 :=
  Nat.mod_lt _ (by norm_num)

theorem float64OfUint64_exact (x : Nat) (h : x ≤ 2 ^ 53) : float64OfUint64 x = x := by
  rcases Nat.lt_or_eq_of_le h with h | h
  · have he : (List.range 11).filter (fun i => decide (2 ^ (53 + i) ≤ x)) = [] := by
      rw [List.filter_eq_nil_iff]
      intro i _
      have hp : 2 ^ 53 ≤ 2 ^ (53 + i) := Nat.pow_le_pow_right (by norm_num) (by omega)
      simp only [decide_eq_true_eq]
      omega
    simp [float64OfUint64, he]
  · subst h
    decide

theorem counterLoop_record (l : List AfiSafiState) (acc : Nat × Nat × Nat)
    (h1 : acc.1 < 2 ^ 64) (h2 : acc.2.1 < 2 ^ 64) (h3 : acc.2.2 < 2 ^ 64) :
    counterLoop (l.map (fun st => (⟨some st⟩ : AfiSafi))) acc =
      .ok ((acc.1 + (l.map (fun st => st.Accepted)).sum) % 2 ^ 64,
           (acc.2.1 + (l.map (fun st => st.Received)).sum) % 2 ^ 64,
           (acc.2.2 + (l.map (fun st => st.Advertised)).sum) % 2 ^ 64) := by
  induction l generalizing acc with
  | nil =>
    simp only [List.map_nil, counterLoop, List.sum_nil, Nat.add_zero]
    rw [Nat.mod_eq_of_lt h1, Nat.mod_eq_of_lt h2, Nat.mod_eq_of_lt h3]
  | cons a l ih =>
    simp only [List.map_cons, counterLoop]
    rw [ih _ (uint64Add_lt _ _) (uint64Add_lt _ _) (uint64Add_lt _ _)]
    simp only [uint64Add, List.sum_cons, Nat.mod_add_mod, Nat.add_assoc]

theorem counter_record (fp : PeerRecord) :
    counter fp.peer =
      .ok (sumOver (fun st => st.Received) fp % 2 ^ 64,
           sumOver (fun st => st.Accepted) fp % 2 ^ 64,
           sumOver (fun st => st.Advertised) fp % 2 ^ 64, none) := by
  simp only [counter, PeerRecord.peer, sumOver]
  rw [counterLoop_record _ _ (by norm_num) (by norm_num) (by norm_num)]
  simp only [Nat.zero_add]

theorem peerBody_record (api : Gobgpapi) (n : RouterNode) (fp : PeerRecord) :
    peerBody api n (some fp.peer) =
      .returned { n with metrics := n.metrics ++ peerSamples api fp } := by
  have hc := counter_record fp
  have hs : fp.peer.State = some fp.State := rfl
  simp only [peerBody, hs, hc]
  by_cases h : fp.State.SessionState = api.PeerState_ESTABLISHED <;>
    simp [h, RouterNode.appendMetric, peerSamples]

theorem forRange_peerBody_record (api : Gobgpapi) (fps : List PeerRecord) (n : RouterNode) :
    forRange (fps.map (fun fp => some fp.peer)) (peerBody api) n =
      .returned { n with metrics := n.metrics ++ fps.flatMap (peerSamples api) } := by
  induction fps generalizing n with
  | nil => simp [forRange]
  | cons fp fps ih =>
    simp only [List.map_cons, forRange, peerBody_record, ih]
    simp [List.append_assoc]

theorem recvPeers_msg (rs : List ListPeerResponse) (peers : List (Option Peer)) :
    recvPeers (rs.map RecvResult.msg) peers = .ok (peers ++ rs.map (fun r => r.Peer)) := by
  induction rs generalizing peers with
  | nil => simp [recvPeers]
  | cons r rs ih => simp [recvPeers, RecvResult.msg, ih, List.append_assoc]

/-- What `GetPeers` does when the ListPeer request succeeds and the stream delivers the
peer records `fps`, none with a nil pointer, and then end-of-data. -/
theorem GetPeers_delivers (api : Gobgpapi) (gobgp : GobgpClient) (n : RouterNode)
    (fps : List PeerRecord)
    (h : gobgp.ListPeer peerRequest =
      .ok ((fps.map PeerRecord.response).map RecvResult.msg)) :
    GetPeers api gobgp n = .returned { n with metrics := n.metrics ++
      (MustNewConstMetric .routerPeers fps.length [] :: fps.flatMap (peerSamples api)) } := by
  unfold peerRequest at h
  have hm : (fps.map PeerRecord.response).map (fun r => r.Peer) =
      fps.map (fun fp => some fp.peer) := by
    simp [List.map_map, PeerRecord.response, Function.comp_def]
  simp only [GetPeers, h, recvPeers_msg, List.nil_append, hm, forRange_peerBody_record,
    RouterNode.appendMetric, List.length_map]
  simp

/-- Whatever the peer is, one pass of the loop of `GetPeers` only appends samples, none
of which is a peer-count sample, also when it panics. -/
theorem peerBody_node (api : Gobgpapi) (n : RouterNode) (p : Option Peer) :
    ∃ extra : List Metric,
      (peerBody api n p).node = { n with metrics := n.metrics ++ extra } ∧
      ∀ m ∈ extra, m.desc ≠ .routerPeers := by
  cases p with
  | none => exact ⟨[], by simp [peerBody, Outcome.node], by simp⟩
  | some p =>
    cases hs : p.State with
    | none => exact ⟨[], by simp [peerBody, hs, Outcome.node], by simp⟩
    | some state =>
      cases hc : counter p with
      | error e =>
        refine ⟨[MustNewConstMetric .routerPeer
          (if state.SessionState = api.PeerState_ESTABLISHED then 1 else 0)
          [state.NeighborAddress]], ?_, ?_⟩
        · simp only [peerBody, hs, hc]
          by_cases h : state.SessionState = api.PeerState_ESTABLISHED <;>
            simp [h, RouterNode.appendMetric, Outcome.node]
        · simp [MustNewConstMetric]
      | ok res =>
        obtain ⟨r, a, ad, err⟩ := res
        refine ⟨[MustNewConstMetric .routerPeer
            (if state.SessionState = api.PeerState_ESTABLISHED then 1 else 0)
            [state.NeighborAddress],
          MustNewConstMetric .routerPeerAsn state.PeerAs [state.NeighborAddress],
          MustNewConstMetric .routerPeerAdminState state.AdminState [state.NeighborAddress],
          MustNewConstMetric .routerPeerSessionState state.SessionState
            [state.NeighborAddress],
          MustNewConstMetric .routerPeerLocalAsn state.LocalAs [state.NeighborAddress],
          MustNewConstMetric .bgpPeerReceivedRoutes (float64OfUint64 r)
            [state.NeighborAddress],
          MustNewConstMetric .bgpPeerAcceptedRoutes (float64OfUint64 a)
            [state.NeighborAddress],
          MustNewConstMetric .bgpPeerAdvertisedRoutes (float64OfUint64 ad)
            [state.NeighborAddress],
          MustNewConstMetric .bgpPeerOutQueue state.OutQ [state.NeighborAddress],
          MustNewConstMetric .bgpPeerFlops state.Flops [state.NeighborAddress],
          MustNewConstMetric .bgpPeerSendCommunityFlag state.SendCommunity
            [state.NeighborAddress],
          MustNewConstMetric .bgpPeerRemovePrivateAsFlag state.RemovePrivateAs
            [state.NeighborAddress],
          MustNewConstMetric .bgpPeerPasswodSetFlag
            (if state.AuthPassword ≠ "" then 1 else 0) [state.NeighborAddress],
          MustNewConstMetric .bgpPeerType state.PeerType [state.NeighborAddress]], ?_, ?_⟩
        · simp only [peerBody, hs, hc]
          by_cases h : state.SessionState = api.PeerState_ESTABLISHED <;>
            simp [h, RouterNode.appendMetric, Outcome.node]
        · simp [MustNewConstMetric]

/-- However `GetPeers` ends after the stream has delivered the records `rs`, the node
has gained the peer-count sample followed by samples that are not peer-count samples. -/
theorem GetPeers_node (api : Gobgpapi) (gobgp : GobgpClient) (n : RouterNode)
    (rs : List ListPeerResponse)
    (h : gobgp.ListPeer peerRequest = .ok (rs.map RecvResult.msg)) :
    ∃ rest : List Metric,
      (GetPeers api gobgp n).node = { n with metrics := n.metrics ++
        (MustNewConstMetric .routerPeers rs.length [] :: rest) } ∧
      ∀ m ∈ rest, m.desc ≠ .routerPeers := by
  unfold peerRequest at h
  simp only [GetPeers, h, recvPeers_msg, List.nil_append, List.length_map]
  refine forRange_inv (fun n2 => ∃ rest : List Metric,
      n2 = { n with metrics := n.metrics ++
        (MustNewConstMetric .routerPeers rs.length [] :: rest) } ∧
      ∀ m ∈ rest, m.desc ≠ .routerPeers) _ _ ?_ _ ?_
  · rintro n2 p ⟨rest, rfl, hrest⟩
    obtain ⟨extra, he, hextra⟩ := peerBody_node api
      { n with metrics := n.metrics ++ (MustNewConstMetric .routerPeers rs.length [] :: rest) } p
    refine ⟨rest ++ extra, ?_, ?_⟩
    · rw [he]
      simp [List.append_assoc]
    · intro m hm
      rcases List.mem_append.1 hm with hm | hm
      · exact hrest m hm
      · exact hextra m hm
  · exact ⟨[], by simp [RouterNode.appendMetric], by simp⟩

theorem filter_peer_count (k : Nat) (rest : List Metric)
    (h : ∀ m ∈ rest, m.desc ≠ .routerPeers) :
    (MustNewConstMetric .routerPeers k [] :: rest).filter (fun m => m.desc = .routerPeers) =
      [⟨.routerPeers, k, []⟩] := by
  have hn : rest.filter (fun m => decide (m.desc = .routerPeers)) = [] := by
    rw [List.filter_eq_nil_iff]
    intro m hm
    simpa using h m hm
  simp [List.filter_cons, MustNewConstMetric, hn]

theorem length_flatMap_peerSamples (api : Gobgpapi) (fps : List PeerRecord) :
    (fps.flatMap (peerSamples api)).length = 14 * fps.length := by
  induction fps with
  | nil => simp
  | cons fp fps ih =>
    simp only [List.flatMap_cons, List.length_append, ih, List.length_cons]
    simp only [peerSamples, List.length_cons, List.length_nil]
    omega

theorem flatMap_single {α β : Type} (f : α → β) (l : List α) :
    l.flatMap (fun a => [f a]) = l.map f := by
  induction l with
  | nil => rfl
  | cons a l ih => simp [List.flatMap_cons, ih]

theorem filter_peerSamples (api : Gobgpapi) (fps : List PeerRecord) (k : Nat) (d : Desc) :
    (MustNewConstMetric .routerPeers k [] :: fps.flatMap (peerSamples api)).filter
        (fun m => m.desc = d) =
      (if d = .routerPeers then [⟨.routerPeers, k, []⟩] else []) ++
        fps.flatMap (fun fp => (peerSamples api fp).filter (fun m => m.desc = d)) := by
  rw [List.filter_cons, List.filter_flatMap]
  by_cases h : d = .routerPeers
  · subst h
    simp [MustNewConstMetric]
  · have h2 : ¬ Desc.routerPeers = d := fun e => h e.symm
    simp [MustNewConstMetric, h, h2]

/-- C1 fails on the code as the claim states it. A peer that has received 2^53 + 1 routes
gets the received-route sample 2^53, the `float64` nearest to the sum that `counter`
returns; and `counter` panics on a peer one of whose address-family entries has no
State. -/
theorem counter_claim_fails :
    counter peerBig.peer = .ok (9007199254740993, 0, 0, none) ∧
    (GetPeers specApi (peersClient [peerBig.response]) node0).node.metrics.filter
        (fun m => m.desc = .bgpPeerReceivedRoutes) =
      [⟨.bgpPeerReceivedRoutes, 9007199254740992, ["192.0.2.3"]⟩] ∧
    counter peerNoEntryState = .error .nilDereference :=
  ⟨rfl, by decide, rfl⟩

/-- C1, amended. For a peer whose address-family entries all carry their State,
`counter` returns no error and (received, accepted, advertised), each the sum of the
corresponding sub-counter over the entries in unsigned 64-bit arithmetic: the exact sums
whenever these are below 2^64, and 0 for a peer without entries. When the peer stream
delivers peer records without a nil pointer, the received, accepted and advertised
samples that `GetPeers` appends are, peer by peer, the `float64` conversions of these
three values; the conversion is exact on values up to 2^53. -/
theorem counter_sums_and_gauges :
    (∀ fp : PeerRecord,
      counter fp.peer =
        .ok (sumOver (fun st => st.Received) fp % 2 ^ 64,
             sumOver (fun st => st.Accepted) fp % 2 ^ 64,
             sumOver (fun st => st.Advertised) fp % 2 ^ 64, none) ∧
      (sumOver (fun st => st.Received) fp < 2 ^ 64 →
        sumOver (fun st => st.Accepted) fp < 2 ^ 64 →
        sumOver (fun st => st.Advertised) fp < 2 ^ 64 →
        counter fp.peer =
          .ok (sumOver (fun st => st.Received) fp, sumOver (fun st => st.Accepted) fp,
               sumOver (fun st => st.Advertised) fp, none)) ∧
      (fp.AfiSafis = [] → counter fp.peer = .ok (0, 0, 0, none))) ∧
    (∀ (api : Gobgpapi) (gobgp : GobgpClient) (n : RouterNode) (fps : List PeerRecord),
      gobgp.ListPeer peerRequest = .ok ((fps.map PeerRecord.response).map RecvResult.msg) →
      ∃ app : List Metric,
        GetPeers api gobgp n = .returned { n with metrics := n.metrics ++ app } ∧
        app.filter (fun m => m.desc = .bgpPeerReceivedRoutes) =
          fps.map (fun fp => ⟨.bgpPeerReceivedRoutes,
            float64OfUint64 (sumOver (fun st => st.Received) fp % 2 ^ 64),
            [fp.State.NeighborAddress]⟩) ∧
        app.filter (fun m => m.desc = .bgpPeerAcceptedRoutes) =
          fps.map (fun fp => ⟨.bgpPeerAcceptedRoutes,
            float64OfUint64 (sumOver (fun st => st.Accepted) fp % 2 ^ 64),
            [fp.State.NeighborAddress]⟩) ∧
        app.filter (fun m => m.desc = .bgpPeerAdvertisedRoutes) =
          fps.map (fun fp => ⟨.bgpPeerAdvertisedRoutes,
            float64OfUint64 (sumOver (fun st => st.Advertised) fp % 2 ^ 64),
            [fp.State.NeighborAddress]⟩)) ∧
    (∀ x : Nat, x ≤ 2 ^ 53 → float64OfUint64 x = x) := by
  refine ⟨fun fp => ⟨counter_record fp, ?_, ?_⟩, ?_, float64OfUint64_exact⟩
  · intro h1 h2 h3
    rw [counter_record, Nat.mod_eq_of_lt h1, Nat.mod_eq_of_lt h2, Nat.mod_eq_of_lt h3]
  · intro h
    rw [counter_record]
    simp [sumOver, h]
  · intro api gobgp n fps h
    refine ⟨_, GetPeers_delivers api gobgp n fps h, ?_, ?_, ?_⟩ <;>
    · rw [filter_peerSamples]
      simp [peerSamples, MustNewConstMetric, List.filter_cons, flatMap_single]

/-- Witness of C1, amended: the two peers of the spec's scenario. -/
theorem counter_sums_and_gauges_witness :
    counter peerA.peer = .ok (10, 8, 5, none) ∧ counter peerB.peer = .ok (0, 0, 0, none) ∧
    ∃ app : List Metric,
      GetPeers specApi (peersClient [peerA.response, peerB.response]) node0 =
        .returned { node0 with metrics := node0.metrics ++ app } ∧
      app.filter (fun m => m.desc = .bgpPeerReceivedRoutes) =
        [⟨.bgpPeerReceivedRoutes, 10, ["192.0.2.1"]⟩,
         ⟨.bgpPeerReceivedRoutes, 0, ["192.0.2.2"]⟩] ∧
      app.filter (fun m => m.desc = .bgpPeerAcceptedRoutes) =
        [⟨.bgpPeerAcceptedRoutes, 8, ["192.0.2.1"]⟩,
         ⟨.bgpPeerAcceptedRoutes, 0, ["192.0.2.2"]⟩] ∧
      app.filter (fun m => m.desc = .bgpPeerAdvertisedRoutes) =
        [⟨.bgpPeerAdvertisedRoutes, 5, ["192.0.2.1"]⟩,
         ⟨.bgpPeerAdvertisedRoutes, 0, ["192.0.2.2"]⟩] :=
  ⟨(counter_sums_and_gauges.1 peerA).2.1 (by decide) (by decide) (by decide),
   (counter_sums_and_gauges.1 peerB).2.2 rfl,
   counter_sums_and_gauges.2.1 specApi (peersClient [peerA.response, peerB.response]) node0
     [peerA, peerB] rfl⟩

/-- C2. When the ListPeer request succeeds and the stream delivers k records followed
by end-of-data, then however `GetPeers` ends the node has gained exactly one
`routerPeers` sample; it has no label and its value is k (also for k = 0). When none of
the records holds a nil pointer `GetPeers` returns normally. -/
theorem GetPeers_peer_count (api : Gobgpapi) (gobgp : GobgpClient) (n : RouterNode)
    (rs : List ListPeerResponse)
    (h : gobgp.ListPeer peerRequest = .ok (rs.map RecvResult.msg)) :
    (∃ app : List Metric,
      (GetPeers api gobgp n).node = { n with metrics := n.metrics ++ app } ∧
      app.filter (fun m => m.desc = .routerPeers) = [⟨.routerPeers, rs.length, []⟩]) ∧
    (∀ fps : List PeerRecord, rs = fps.map PeerRecord.response →
      ∃ app : List Metric,
        GetPeers api gobgp n = .returned { n with metrics := n.metrics ++ app } ∧
        app.filter (fun m => m.desc = .routerPeers) = [⟨.routerPeers, rs.length, []⟩]) := by
  constructor
  · obtain ⟨rest, hn, hrest⟩ := GetPeers_node api gobgp n rs h
    exact ⟨_, hn, filter_peer_count rs.length rest hrest⟩
  · intro fps hfps
    subst hfps
    refine ⟨_, GetPeers_delivers api gobgp n fps h, ?_⟩
    rw [filter_peerSamples]
    simp [peerSamples, MustNewConstMetric, List.filter_cons]

/-- Witness of C2: a stream that delivers no record gives the peer count 0, and the two
peers of the spec's scenario give the peer count 2. -/
theorem GetPeers_peer_count_witness :
    (∃ app : List Metric,
      GetPeers specApi (peersClient []) node0 =
        .returned { node0 with metrics := node0.metrics ++ app } ∧
      app.filter (fun m => m.desc = .routerPeers) = [⟨.routerPeers, 0, []⟩]) ∧
    (∃ app : List Metric,
      GetPeers specApi (peersClient [peerA.response, peerB.response]) node0 =
        .returned { node0 with metrics := node0.metrics ++ app } ∧
      app.filter (fun m => m.desc = .routerPeers) = [⟨.routerPeers, 2, []⟩]) :=
  ⟨(GetPeers_peer_count specApi (peersClient []) node0 [] rfl).2 [] rfl,
   (GetPeers_peer_count specApi (peersClient [peerA.response, peerB.response]) node0
     [peerA.response, peerB.response] rfl).2 [peerA, peerB] rfl⟩

/-- C3. When the ListPeer request fails, `GetPeers` returns normally with the error
counter incremented once and nothing else changed: the metrics list is the same. -/
theorem GetPeers_request_failure (api : Gobgpapi) (gobgp : GobgpClient) (n : RouterNode)
    (e : GoError) (h : gobgp.ListPeer peerRequest = .error e) :
    GetPeers api gobgp n = .returned { n with errors := n.errors + 1 } ∧
    (GetPeers api gobgp n).node.metrics = n.metrics ∧
    (GetPeers api gobgp n).node.errors = n.errors + 1 := by
  unfold peerRequest at h
  simp [GetPeers, h, RouterNode.IncrementErrorCounter, Outcome.node]

/-- Witness of C3: a daemon that refuses the request. -/
theorem GetPeers_request_failure_witness :
    GetPeers specApi downClient node0 = .returned { node0 with errors := node0.errors + 1 } ∧
    (GetPeers specApi downClient node0).node.metrics = node0.metrics ∧
    (GetPeers specApi downClient node0).node.errors = node0.errors + 1 :=
  GetPeers_request_failure specApi downClient node0 ⟨"connection refused"⟩ rfl

/-- C6, as the claim states it, fails: for a stream that delivers one peer `GetPeers`
appends 15 samples, not 1 + 9 * 1; and for a peer one of whose address-family entries
has no State it panics after the peer-count sample and one per-peer sample. -/
theorem GetPeers_nine_per_peer_fails :
    (GetPeers specApi (peersClient [peerA.response]) node0).node.metrics.length =
        node0.metrics.length + 15 ∧
    (GetPeers specApi (peersClient [peerA.response]) node0).node.metrics.length ≠
        node0.metrics.length + (1 + 9 * [peerA.response].length) ∧
    GetPeers specApi (peersClient [⟨some peerNoEntryState⟩]) node0 =
      .panicked .nilDereference { node0 with metrics :=
        [⟨.routerPeers, 1, []⟩, ⟨.routerPeer, 1, ["192.0.2.9"]⟩] } := by
  decide

/-- C6, amended. When the ListPeer request succeeds and the stream delivers n peers,
each with its State and with a State on every address-family entry, `GetPeers` returns
having appended one peer-count sample followed, for each peer in turn, by exactly
fourteen samples, none of them a peer-count sample and each labelled by that peer's
neighbor address: 1 + 14 * n samples in total. -/
theorem GetPeers_fourteen_per_peer (api : Gobgpapi) (gobgp : GobgpClient) (n : RouterNode)
    (fps : List PeerRecord)
    (h : gobgp.ListPeer peerRequest =
      .ok ((fps.map PeerRecord.response).map RecvResult.msg)) :
    ∃ chunks : List (List Metric),
      GetPeers api gobgp n = .returned { n with metrics := n.metrics ++
        (MustNewConstMetric .routerPeers fps.length [] :: chunks.flatten) } ∧
      List.Forall₂ (fun fp chunk => chunk.length = 14 ∧
        ∀ m ∈ chunk, m.desc ≠ .routerPeers ∧ m.labelValues = [fp.State.NeighborAddress])
        fps chunks ∧
      (MustNewConstMetric .routerPeers fps.length [] :: chunks.flatten).length =
        1 + 14 * fps.length := by
  refine ⟨fps.map (peerSamples api), ?_, ?_, ?_⟩
  · rw [GetPeers_delivers api gobgp n fps h, List.flatMap_def]
  · rw [List.forall₂_map_right_iff, List.forall₂_same]
    intro fp _
    simp [peerSamples, MustNewConstMetric]
  · rw [← List.flatMap_def, List.length_cons, length_flatMap_peerSamples]
    omega

/-- Witness of C6, amended: the two peers of the spec's scenario give 29 samples. -/
theorem GetPeers_fourteen_per_peer_witness :
    ∃ chunks : List (List Metric),
      GetPeers specApi (peersClient [peerA.response, peerB.response]) node0 =
        .returned { node0 with metrics := node0.metrics ++
          (MustNewConstMetric .routerPeers 2 [] :: chunks.flatten) } ∧
      List.Forall₂ (fun fp chunk => chunk.length = 14 ∧
        ∀ m ∈ chunk, m.desc ≠ .routerPeers ∧ m.labelValues = [fp.State.NeighborAddress])
        [peerA, peerB] chunks ∧
      (MustNewConstMetric .routerPeers 2 [] :: chunks.flatten).length = 1 + 14 * 2 :=
  GetPeers_fourteen_per_peer specApi (peersClient [peerA.response, peerB.response]) node0
    [peerA, peerB] rfl

/-- C9 fails on the code: the stream delivers an established peer one of whose
address-family entries has no State, and then the active peer of the spec's scenario.
`GetPeers` appends the peer count 2 and the session-up sample of the first peer, then
panics in `counter`: the second peer gets no session-up sample. -/
theorem GetPeers_session_up_panics :
    GetPeers specApi (peersClient [⟨some peerNoEntryState⟩, peerB.response]) node0 =
      .panicked .nilDereference { node0 with metrics :=
        [⟨.routerPeers, 2, []⟩, ⟨.routerPeer, 1, ["192.0.2.9"]⟩] } ∧
    ((GetPeers specApi (peersClient [⟨some peerNoEntryState⟩, peerB.response])
        node0).node.metrics.filter
      (fun m => m.desc = .routerPeer ∧ m.labelValues = ["192.0.2.2"])) = [] := by
  decide

/-- C10 fails on the code: the stream delivers a peer with a password one of whose
address-family entries has no State. `GetPeers` panics in `counter`, which it calls
before it computes the password flag: no password sample is appended for the peer. -/
theorem GetPeers_password_flag_panics :
    GetPeers specApi (peersClient [⟨some peerNoEntryState⟩]) node0 =
      .panicked .nilDereference { node0 with metrics :=
        [⟨.routerPeers, 1, []⟩, ⟨.routerPeer, 1, ["192.0.2.9"]⟩] } ∧
    ((GetPeers specApi (peersClient [⟨some peerNoEntryState⟩]) node0).node.metrics.filter
      (fun m => m.desc = .bgpPeerPasswodSetFlag)) = [] := by
  decide

/-- On a stream of peer records without a nil pointer, the `routerPeer` samples that
`GetPeers` appends are exactly one per peer, in order, labelled by the peer's neighbor
address, with value 1 if the peer's session state is ESTABLISHED and 0 otherwise. -/
theorem GetPeers_session_up_complete (api : Gobgpapi) (gobgp : GobgpClient) (n : RouterNode)
    (fps : List PeerRecord)
    (h : gobgp.ListPeer peerRequest =
      .ok ((fps.map PeerRecord.response).map RecvResult.msg)) :
    ∃ app : List Metric,
      GetPeers api gobgp n = .returned { n with metrics := n.metrics ++ app } ∧
      app.filter (fun m => m.desc = .routerPeer) =
        fps.map (fun fp => ⟨.routerPeer,
          if fp.State.SessionState = api.PeerState_ESTABLISHED then 1 else 0,
          [fp.State.NeighborAddress]⟩) := by
  refine ⟨_, GetPeers_delivers api gobgp n fps h, ?_⟩
  rw [filter_peerSamples]
  simp [peerSamples, MustNewConstMetric, List.filter_cons, flatMap_single]

theorem peerSamples_withPassword (api : Gobgpapi) (fp : PeerRecord) (pw : String)
    (h : pw = "" ↔ fp.State.AuthPassword = "") :
    peerSamples api (fp.withPassword pw) = peerSamples api fp := by
  by_cases hp : fp.State.AuthPassword = ""
  · simp [peerSamples, PeerRecord.withPassword, sumOver, hp, h.2 hp]
  · have hpw : ¬ pw = "" := fun e => hp (h.1 e)
    simp [peerSamples, PeerRecord.withPassword, sumOver, hp, hpw]

/-- On a stream of peer records without a nil pointer, the password samples that
`GetPeers` appends are exactly one per peer, with value 1 if the AuthPassword is not
the empty string and 0 if it is; replacing every password by another one that is empty
exactly when the original is leaves the outcome of `GetPeers` the same. -/
theorem GetPeers_password_flag_complete (api : Gobgpapi) (gobgp gobgp2 : GobgpClient)
    (n : RouterNode) (fps : List PeerRecord) (repw : String → String)
    (h : gobgp.ListPeer peerRequest =
      .ok ((fps.map PeerRecord.response).map RecvResult.msg))
    (h2 : gobgp2.ListPeer peerRequest =
      .ok (((fps.map fun fp => fp.withPassword (repw fp.State.AuthPassword)).map
        PeerRecord.response).map RecvResult.msg))
    (hrepw : ∀ s, repw s = "" ↔ s = "") :
    (∃ app : List Metric,
      GetPeers api gobgp n = .returned { n with metrics := n.metrics ++ app } ∧
      app.filter (fun m => m.desc = .bgpPeerPasswodSetFlag) =
        fps.map (fun fp => ⟨.bgpPeerPasswodSetFlag,
          if fp.State.AuthPassword ≠ "" then 1 else 0,
          [fp.State.NeighborAddress]⟩)) ∧
    GetPeers api gobgp2 n = GetPeers api gobgp n := by
  refine ⟨⟨_, GetPeers_delivers api gobgp n fps h, ?_⟩, ?_⟩
  · rw [filter_peerSamples]
    simp [peerSamples, MustNewConstMetric, List.filter_cons, flatMap_single]
  · rw [GetPeers_delivers api gobgp n fps h, GetPeers_delivers api gobgp2 n _ h2]
    simp only [List.length_map, List.flatMap_map]
    congr 5
    funext fp
    exact peerSamples_withPassword api fp _ (hrepw _)

theorem maskPassword_empty (s : String) : maskPassword s = "" ↔ s = "" := by
  unfold maskPassword
  by_cases h : s = "" <;> simp [h]

/-- The two peers of the spec's scenario: the peer with a password gets 1, the one
without gets 0, and replacing the password "s3cret" by "x" leaves the outcome the same. -/
theorem GetPeers_password_flag_example :
    (∃ app : List Metric,
      GetPeers specApi (peersClient [peerA.response, peerB.response]) node0 =
        .returned { node0 with metrics := node0.metrics ++ app } ∧
      app.filter (fun m => m.desc = .bgpPeerPasswodSetFlag) =
        [⟨.bgpPeerPasswodSetFlag, 1, ["192.0.2.1"]⟩,
         ⟨.bgpPeerPasswodSetFlag, 0, ["192.0.2.2"]⟩]) ∧
    GetPeers specApi
        (peersClient [(peerA.withPassword "x").response, peerB.response]) node0 =
      GetPeers specApi (peersClient [peerA.response, peerB.response]) node0 :=
  GetPeers_password_flag_complete specApi (peersClient [peerA.response, peerB.response])
    (peersClient [(peerA.withPassword "x").response, peerB.response]) node0
    [peerA, peerB] maskPassword rfl rfl maskPassword_empty

/-! ## Properties of `collect_rib.go` -/

theorem sameConfig_refl (n : RouterNode) : sameConfig n n := ⟨rfl, rfl, rfl⟩

theorem ribAfiBody_unsupported (api : Gobgpapi) (gobgp : GobgpClient) (t s : String)
    (a : Int) (n : RouterNode) (h1 : t ≠ "GLOBAL") (h2 : t ≠ "LOCAL") :
    ribAfiBody api gobgp t s n a = .returned n := by
  simp [ribAfiBody, h1, h2]

theorem ribAfiBody_supported (api : Gobgpapi) (gobgp : GobgpClient) (t s : String)
    (a : Int) (n : RouterNode) (h : t = "GLOBAL" ∨ t = "LOCAL") :
    ribAfiBody api gobgp t s n a =
      match gobgp.ListPath n.listPathSent.length (ribRequestOf api (t, s, a)) with
      | .error _ => .returned { n with
          listPathSent := n.listPathSent ++ [ribRequestOf api (t, s, a)],
          errors := n.errors + 1 }
      | .ok st =>
        match recvPaths st [] with
        | .error p => .panicked p { n with
            listPathSent := n.listPathSent ++ [ribRequestOf api (t, s, a)] }
        | .ok rib => .returned { n with
            listPathSent := n.listPathSent ++ [ribRequestOf api (t, s, a)],
            metrics := n.metrics ++ [⟨.routerRibDestinations, rib.length,
              [strings_ToLower t, strings_ToLower s]⟩] } := by
  have hreq : (if t = "GLOBAL" then some api.TableType_GLOBAL
      else if t = "LOCAL" then some api.TableType_LOCAL else none) =
      some (ribRequestOf api (t, s, a)).TableType := by
    rcases h with h | h
    · simp [ribRequestOf, h]
    · subst h
      have hne : ¬ ("LOCAL" = "GLOBAL") := by decide
      simp [ribRequestOf, hne]
  have hr : (⟨(ribRequestOf api (t, s, a)).TableType, ⟨a, api.Family_Safi_value s⟩⟩ :
      ListPathRequest) = ribRequestOf api (t, s, a) := rfl
  simp only [ribAfiBody, hreq, hr]
  cases hq : gobgp.ListPath n.listPathSent.length (ribRequestOf api (t, s, a)) with
  | error e => simp [RouterNode.IncrementErrorCounter]
  | ok st =>
    simp only []
    cases hd : recvPaths st [] with
    | error p => simp
    | ok rib => simp [RouterNode.appendMetric, MustNewConstMetric]

theorem ribAfiBody_sameConfig (api : Gobgpapi) (gobgp : GobgpClient) (t s : String)
    (a : Int) (n0 n : RouterNode) (h : sameConfig n0 n) :
    sameConfig n0 (ribAfiBody api gobgp t s n a).node := by
  by_cases ht : t = "GLOBAL" ∨ t = "LOCAL"
  · rw [ribAfiBody_supported api gobgp t s a n ht]
    cases hq : gobgp.ListPath n.listPathSent.length (ribRequestOf api (t, s, a)) with
    | error e => exact h
    | ok st =>
      simp only []
      cases hd : recvPaths st [] with
      | error p => exact h
      | ok rib => exact h
  · rw [ribAfiBody_unsupported api gobgp t s a n (fun e => ht (Or.inl e))
      (fun e => ht (Or.inr e))]
    exact h

theorem enabled_congr (n0 n : RouterNode) (h : sameConfig n0 n) (t s : String) :
    enabled n t s = enabled n0 t s := by
  obtain ⟨h1, h2, h3⟩ := h
  simp [enabled, h1, h2, h3]

theorem ribSafiBody_eq (api : Gobgpapi) (gobgp : GobgpClient) (t s : String)
    (n0 n : RouterNode) (h : sameConfig n0 n) :
    ribSafiBody api gobgp t n s =
      forRange (if enabled n0 t s then api.Family_Afi_value.map (fun a => (t, s, a)) else [])
        (ribComboBody api gobgp) n := by
  rw [← enabled_congr n0 n h]
  unfold ribSafiBody enabled
  by_cases hc : n.connected = true
  · by_cases hr : mapExists n.resourceTypes t = true
    · by_cases hs : mapExists n.addressFamilies s = true
      · by_cases ht : t = "GLOBAL" ∨ t = "LOCAL"
        · have : (decide (t = "GLOBAL") || decide (t = "LOCAL")) = true := by simpa using ht
          simp only [hc, hr, hs, this, Bool.not_true, Bool.and_self, if_true, forRange_map]
          simp [ribComboBody]
        · have hf : (decide (t = "GLOBAL") || decide (t = "LOCAL")) = false := by simpa using ht
          simp only [hc, hr, hs, hf, Bool.not_true, Bool.and_false, forRange]
          simp only [Bool.false_eq_true, if_false]
          apply forRange_skip
          intro a _
          have h1 : ¬ t = "GLOBAL" := fun e => ht (Or.inl e)
          have h2 : ¬ t = "LOCAL" := fun e => ht (Or.inr e)
          simp [ribAfiBody, h1, h2]
      · simp [hc, hr, hs, forRange]
    · simp [hc, hr, forRange]
  · simp [hc, forRange]

theorem mem_enabledCombos (api : Gobgpapi) (n : RouterNode) (c : String × String × Int) :
    c ∈ enabledCombos api n ↔
      c.1 ∈ api.TableType_name ∧ c.2.1 ∈ api.Family_Safi_name ∧
        c.2.2 ∈ api.Family_Afi_value ∧ enabled n c.1 c.2.1 = true := by
  obtain ⟨t, s, a⟩ := c
  simp only [enabledCombos, List.mem_flatMap]
  constructor
  · rintro ⟨t1, ht1, s1, hs1, hm⟩
    by_cases he : enabled n t1 s1 = true
    · simp only [he, if_true, List.mem_map, Prod.mk.injEq] at hm
      obtain ⟨a1, ha1, rfl, rfl, rfl⟩ := hm
      exact ⟨ht1, hs1, ha1, he⟩
    · simp [he] at hm
  · rintro ⟨ht, hs, ha, he⟩
    refine ⟨t, ht, s, hs, ?_⟩
    simp [he, ha]

/-- The method `GetRibCounters` runs the body of its innermost loop on the enabled
combinations, in order. -/
theorem GetRibCounters_eq (api : Gobgpapi) (gobgp : GobgpClient) (n : RouterNode) :
    GetRibCounters api gobgp n =
      forRange (enabledCombos api n) (ribComboBody api gobgp) n := by
  unfold GetRibCounters enabledCombos
  by_cases hc : n.connected = true
  · simp only [hc, beq_iff_eq, Bool.true_eq_false, if_false]
    refine forRange_flatMap (sameConfig n) _ _ _ _ ?_ ?_ n (sameConfig_refl n)
    · intro n1 t h1
      refine forRange_flatMap (sameConfig n) _ _ _ _ ?_ ?_ n1 h1
      · intro n2 s h2
        exact ribSafiBody_eq api gobgp t s n n2 h2
      · intro n2 c h2
        exact ribAfiBody_sameConfig api gobgp _ _ _ n n2 h2
    · intro n2 c h2
      exact ribAfiBody_sameConfig api gobgp _ _ _ n n2 h2
  · have hf : n.connected = false := by simpa using hc
    have hnil : enabledCombos api n = [] := by
      apply List.eq_nil_iff_forall_not_mem.2
      intro c hm
      have he := ((mem_enabledCombos api n c).1 hm).2.2.2
      simp [enabled, hf] at he
    unfold enabledCombos at hnil
    simp [hf, hnil, forRange]


theorem recvPaths_msg (ds : List ListPathResponse) (rib : List Destination) :
    recvPaths (ds.map RecvResult.msg) rib = .ok (rib ++ ds.map (fun d => d.Destination)) := by
  induction ds generalizing rib with
  | nil => simp [recvPaths]
  | cons d ds ih => simp [recvPaths, RecvResult.msg, ih, List.append_assoc]

/-- A run of the innermost loop body over supported combinations when every stream
that opens delivers records and then end-of-data. -/
theorem forRange_combos_clean (api : Gobgpapi) (gobgp : GobgpClient)
    (hclean : ∀ k req st, gobgp.ListPath k req = .ok st →
      ∃ ds : List ListPathResponse, st = ds.map RecvResult.msg)
    (cs : List (String × String × Int))
    (hsup : ∀ c ∈ cs, c.1 = "GLOBAL" ∨ c.1 = "LOCAL") (n : RouterNode) :
    forRange cs (ribComboBody api gobgp) n = .returned { n with
      listPathSent := n.listPathSent ++ cs.map (ribRequestOf api),
      errors := n.errors +
        ((repliesFrom api gobgp n.listPathSent.length cs).filter
          (fun cr => isFailure cr.2)).length,
      metrics := n.metrics ++
        (repliesFrom api gobgp n.listPathSent.length cs).filterMap ribSampleOf } := by
  induction cs generalizing n with
  | nil => simp [forRange, repliesFrom]
  | cons c cs ih =>
    obtain ⟨t, s, a⟩ := c
    have ht := hsup (t, s, a) (List.mem_cons_self _ _)
    have ih2 := fun m => ih (fun c hc => hsup c (List.mem_cons_of_mem _ hc)) m
    simp only [forRange, ribComboBody, ribAfiBody_supported api gobgp t s a n ht, repliesFrom]
    cases hq : gobgp.ListPath n.listPathSent.length (ribRequestOf api (t, s, a)) with
    | error e =>
      simp only [ih2, ribComboBody, List.length_append, List.length_singleton]
      simp [isFailure, ribSampleOf, List.filter_cons, Nat.add_assoc, Nat.add_comm 1]
    | ok st =>
      obtain ⟨ds, rfl⟩ := hclean _ _ _ hq
      simp only [recvPaths_msg, ih2, ribComboBody, List.length_append, List.length_singleton]
      simp [isFailure, ribSampleOf, List.filter_cons]

/-- C5. When every stream that a ListPath request opens delivers destination records
and then end-of-data, `GetRibCounters` returns normally, having issued one request for
each enabled, supported (table type, SAFI, AFI) combination in turn, whatever the
outcome of the earlier requests. Each failed request adds one to the error counter and
no sample; each successful request whose stream holds d records adds exactly one sample
with value d and the labels (lower-cased table-type name, lower-cased SAFI name). So the
error counter grows by the number of failed requests and the number of samples appended
is the number of successful requests. -/
theorem GetRibCounters_per_combination (api : Gobgpapi) (gobgp : GobgpClient)
    (n : RouterNode) (hconn : n.connected = true)
    (hclean : ∀ k req st, gobgp.ListPath k req = .ok st →
      ∃ ds : List ListPathResponse, st = ds.map RecvResult.msg) :
    GetRibCounters api gobgp n = .returned { n with
      listPathSent := n.listPathSent ++ (enabledCombos api n).map (ribRequestOf api),
      errors := n.errors +
        ((repliesFrom api gobgp n.listPathSent.length (enabledCombos api n)).filter
          (fun cr => isFailure cr.2)).length,
      metrics := n.metrics ++
        (repliesFrom api gobgp n.listPathSent.length (enabledCombos api n)).filterMap
          ribSampleOf } ∧
    ((repliesFrom api gobgp n.listPathSent.length (enabledCombos api n)).filterMap
        ribSampleOf).length =
      ((repliesFrom api gobgp n.listPathSent.length (enabledCombos api n)).filter
        (fun cr => !isFailure cr.2)).length ∧
    (∀ c : String × String × Int, c ∈ enabledCombos api n ↔
      c.1 ∈ api.TableType_name ∧ c.2.1 ∈ api.Family_Safi_name ∧
      c.2.2 ∈ api.Family_Afi_value ∧ mapExists n.resourceTypes c.1 = true ∧
      mapExists n.addressFamilies c.2.1 = true ∧ (c.1 = "GLOBAL" ∨ c.1 = "LOCAL")) := by
  refine ⟨?_, ?_, ?_⟩
  · rw [GetRibCounters_eq]
    apply forRange_combos_clean api gobgp hclean
    intro c hc
    have he := ((mem_enabledCombos api n c).1 hc).2.2.2
    simp only [enabled, Bool.and_eq_true, Bool.or_eq_true, decide_eq_true_eq] at he
    exact he.2
  · generalize repliesFrom api gobgp n.listPathSent.length (enabledCombos api n) = l
    induction l with
    | nil => rfl
    | cons cr l ih =>
      obtain ⟨c, r⟩ := cr
      cases r with
      | error e => simpa [ribSampleOf, isFailure, List.filter_cons] using ih
      | ok st => simpa [ribSampleOf, isFailure, List.filter_cons] using ih
  · intro c
    rw [mem_enabledCombos]
    simp [enabled, hconn, and_assoc]

/-- Witness of C5, the spec's scenario: the GLOBAL query returns three destinations
and the LOCAL query fails; one sample ("global", "ipv4-unicast", 3) is appended and the
error counter grows by one. -/
theorem GetRibCounters_per_combination_witness :
    GetRibCounters specApi ribClient node0 = .returned { node0 with
      listPathSent := [⟨0, ⟨1, 1⟩⟩, ⟨1, ⟨1, 1⟩⟩],
      errors := 1,
      metrics := [⟨.routerRibDestinations, 3, ["global", "ipv4-unicast"]⟩] } :=
  (GetRibCounters_per_combination specApi ribClient node0 rfl (by
    intro k req st h
    unfold ribClient at h
    by_cases hreq : req.TableType = 0
    · simp only [hreq, if_true, Except.ok.injEq] at h
      exact ⟨[⟨⟨"10.0.0.0/8"⟩⟩, ⟨⟨"172.16.0.0/12"⟩⟩, ⟨⟨"192.168.0.0/16"⟩⟩], h.symm⟩
    · simp [hreq] at h)).1.trans (by decide)

theorem enabled_false_of_not (n : RouterNode) (t s : String)
    (h : ¬ (n.connected = true ∧ mapExists n.resourceTypes t = true ∧
      mapExists n.addressFamilies s = true ∧ (t = "GLOBAL" ∨ t = "LOCAL"))) :
    enabled n t s = false := by
  by_contra he
  apply h
  have he2 : enabled n t s = true := by simpa using he
  simp only [enabled, Bool.and_eq_true, Bool.or_eq_true, decide_eq_true_eq] at he2
  exact ⟨he2.1.1.1, he2.1.1.2, he2.1.2, he2.2⟩

/-- C4. `GetRibCounters` issues a request and appends a sample for a (table-type name,
SAFI name, AFI value) combination only if the connectivity flag is true, the table-type
name is a key of the resource-type allow-set, the SAFI name is a key of the
address-family allow-set and the table-type name is GLOBAL or LOCAL. With the flag false
the call returns the node as it is (no sample, no error, no request). The loop body of a
(table-type name, SAFI name) pair that fails one of the four conditions leaves the node
as it is, and so does the innermost body for a table-type name other than GLOBAL and
LOCAL. However the call ends, every sample it has appended is a RIB-size sample labelled
by a combination that fulfils the four conditions, every request it has issued is the
request of such a combination, and the error counter has grown by at most the number of
requests issued. -/
theorem GetRibCounters_only_enabled (api : Gobgpapi) (gobgp : GobgpClient) (n : RouterNode) :
    (n.connected = false → GetRibCounters api gobgp n = .returned n) ∧
    (∀ (t s : String) (n1 : RouterNode),
      ¬ (n1.connected = true ∧ mapExists n1.resourceTypes t = true ∧
        mapExists n1.addressFamilies s = true ∧ (t = "GLOBAL" ∨ t = "LOCAL")) →
      ribSafiBody api gobgp t n1 s = .returned n1) ∧
    (∀ (t s : String) (a : Int) (n1 : RouterNode), t ≠ "GLOBAL" → t ≠ "LOCAL" →
      ribAfiBody api gobgp t s n1 a = .returned n1) ∧
    (∃ (app : List Metric) (sent : List ListPathRequest),
      (GetRibCounters api gobgp n).node.metrics = n.metrics ++ app ∧
      (GetRibCounters api gobgp n).node.listPathSent = n.listPathSent ++ sent ∧
      (∀ m ∈ app, ∃ (t s : String) (a : Int),
        t ∈ api.TableType_name ∧ s ∈ api.Family_Safi_name ∧ a ∈ api.Family_Afi_value ∧
        m.desc = .routerRibDestinations ∧
        m.labelValues = [strings_ToLower t, strings_ToLower s] ∧
        n.connected = true ∧ mapExists n.resourceTypes t = true ∧
        mapExists n.addressFamilies s = true ∧ (t = "GLOBAL" ∨ t = "LOCAL")) ∧
      (∀ r ∈ sent, ∃ (t s : String) (a : Int),
        t ∈ api.TableType_name ∧ s ∈ api.Family_Safi_name ∧ a ∈ api.Family_Afi_value ∧
        r = ribRequestOf api (t, s, a) ∧
        n.connected = true ∧ mapExists n.resourceTypes t = true ∧
        mapExists n.addressFamilies s = true ∧ (t = "GLOBAL" ∨ t = "LOCAL")) ∧
      n.errors ≤ (GetRibCounters api gobgp n).node.errors ∧
      (GetRibCounters api gobgp n).node.errors ≤ n.errors + sent.length) := by
  refine ⟨?_, ?_, ?_, ?_⟩
  · intro h
    simp [GetRibCounters, h]
  · intro t s n1 h
    rw [ribSafiBody_eq api gobgp t s n1 n1 (sameConfig_refl n1), enabled_false_of_not n1 t s h]
    simp [forRange]
  · intro t s a n1 h1 h2
    exact ribAfiBody_unsupported api gobgp t s a n1 h1 h2
  · rw [GetRibCounters_eq]
    have hen : ∀ c ∈ enabledCombos api n,
        c.1 ∈ api.TableType_name ∧ c.2.1 ∈ api.Family_Safi_name ∧
        c.2.2 ∈ api.Family_Afi_value ∧
        n.connected = true ∧ mapExists n.resourceTypes c.1 = true ∧
        mapExists n.addressFamilies c.2.1 = true ∧ (c.1 = "GLOBAL" ∨ c.1 = "LOCAL") := by
      intro c hc
      obtain ⟨h1, h2, h3, he⟩ := (mem_enabledCombos api n c).1 hc
      simp only [enabled, Bool.and_eq_true, Bool.or_eq_true, decide_eq_true_eq] at he
      exact ⟨h1, h2, h3, he.1.1.1, he.1.1.2, he.1.2, he.2⟩
    refine forRange_inv_mem (fun n2 => ∃ (app : List Metric) (sent : List ListPathRequest),
      n2.metrics = n.metrics ++ app ∧ n2.listPathSent = n.listPathSent ++ sent ∧
      (∀ m ∈ app, ∃ (t s : String) (a : Int),
        t ∈ api.TableType_name ∧ s ∈ api.Family_Safi_name ∧ a ∈ api.Family_Afi_value ∧
        m.desc = .routerRibDestinations ∧
        m.labelValues = [strings_ToLower t, strings_ToLower s] ∧
        n.connected = true ∧ mapExists n.resourceTypes t = true ∧
        mapExists n.addressFamilies s = true ∧ (t = "GLOBAL" ∨ t = "LOCAL")) ∧
      (∀ r ∈ sent, ∃ (t s : String) (a : Int),
        t ∈ api.TableType_name ∧ s ∈ api.Family_Safi_name ∧ a ∈ api.Family_Afi_value ∧
        r = ribRequestOf api (t, s, a) ∧
        n.connected = true ∧ mapExists n.resourceTypes t = true ∧
        mapExists n.addressFamilies s = true ∧ (t = "GLOBAL" ∨ t = "LOCAL")) ∧
      n.errors ≤ n2.errors ∧ n2.errors ≤ n.errors + sent.length)
      (enabledCombos api n) (ribComboBody api gobgp) ?_ n ?_
    · rintro n2 ⟨t, s, a⟩ hc ⟨app, sent, hm, hs, hP, hQ, hle, hge⟩
      obtain ⟨h1, h2, h3, h4, h5, h6, h7⟩ := hen (t, s, a) hc
      have hQ2 : ∀ r ∈ sent ++ [ribRequestOf api (t, s, a)], ∃ (t s : String) (a : Int),
          t ∈ api.TableType_name ∧ s ∈ api.Family_Safi_name ∧ a ∈ api.Family_Afi_value ∧
          r = ribRequestOf api (t, s, a) ∧
          n.connected = true ∧ mapExists n.resourceTypes t = true ∧
          mapExists n.addressFamilies s = true ∧ (t = "GLOBAL" ∨ t = "LOCAL") := by
        intro r hr
        rcases List.mem_append.1 hr with hr | hr
        · exact hQ r hr
        · rw [List.mem_singleton] at hr
          exact ⟨t, s, a, h1, h2, h3, hr, h4, h5, h6, h7⟩
      simp only [ribComboBody]
      rw [ribAfiBody_supported api gobgp t s a n2 h7]
      cases hq : gobgp.ListPath n2.listPathSent.length (ribRequestOf api (t, s, a)) with
      | error e =>
        refine ⟨app, sent ++ [ribRequestOf api (t, s, a)], hm, ?_, hP, hQ2, ?_, ?_⟩
        · simp [Outcome.node, hs]
        · simp only [Outcome.node]
          omega
        · simp only [Outcome.node, List.length_append, List.length_singleton]
          omega
      | ok st =>
        simp only []
        cases hd : recvPaths st [] with
        | error p =>
          refine ⟨app, sent ++ [ribRequestOf api (t, s, a)], hm, ?_, hP, hQ2, ?_, ?_⟩
          · simp [Outcome.node, hs]
          · simp only [Outcome.node]
            omega
          · simp only [Outcome.node, List.length_append, List.length_singleton]
            omega
        | ok rib =>
          refine ⟨app ++ [⟨.routerRibDestinations, rib.length,
            [strings_ToLower t, strings_ToLower s]⟩], sent ++ [ribRequestOf api (t, s, a)],
            ?_, ?_, ?_, hQ2, ?_, ?_⟩
          · simp [Outcome.node, hm]
          · simp [Outcome.node, hs]
          · intro m hmem
            rcases List.mem_append.1 hmem with hmem | hmem
            · exact hP m hmem
            · rw [List.mem_singleton] at hmem
              subst hmem
              exact ⟨t, s, a, h1, h2, h3, rfl, rfl, h4, h5, h6, h7⟩
          · simp only [Outcome.node]
            omega
          · simp only [Outcome.node, List.length_append, List.length_singleton]
            omega
    · exact ⟨[], [], by simp, by simp, by simp, by simp, Nat.le_refl _, by simp⟩

/-- Witness of C4: with the connectivity flag false nothing happens, and with the flag
true the disabled ipv6-unicast family and the unsupported table type ADJ_IN are passed
over. -/
theorem GetRibCounters_only_enabled_witness :
    GetRibCounters specApi ribClient nodeDown = .returned nodeDown ∧
    ribSafiBody specApi ribClient "GLOBAL" node0 "ipv6-unicast" = .returned node0 ∧
    ribAfiBody specApi ribClient "ADJ_IN" "ipv4-unicast" node0 1 = .returned node0 :=
  ⟨(GetRibCounters_only_enabled specApi ribClient nodeDown).1 rfl,
   (GetRibCounters_only_enabled specApi ribClient node0).2.1 "GLOBAL" "ipv6-unicast" node0
     (by decide),
   (GetRibCounters_only_enabled specApi ribClient node0).2.2.1 "ADJ_IN" "ipv4-unicast" 1 node0
     (by decide) (by decide)⟩

theorem recvPeers_nil (rs : List ListPeerResponse) (e : Option GoError)
    (rest : RecvStream ListPeerResponse) (peers : List (Option Peer)) :
    recvPeers (rs.map RecvResult.msg ++ ⟨none, e⟩ :: rest) peers = .error .nilDereference := by
  induction rs generalizing peers with
  | nil => simp [recvPeers]
  | cons r rs ih => simp [recvPeers, RecvResult.msg, ih]

/-- Whenever a `Recv()` of the peer stream hands back a nil response, which is what it
does when it reports an error, `GetPeers` panics and has appended nothing. -/
theorem GetPeers_recv_nil (api : Gobgpapi) (gobgp : GobgpClient) (n : RouterNode)
    (rs : List ListPeerResponse) (e : Option GoError) (rest : RecvStream ListPeerResponse)
    (h : gobgp.ListPeer peerRequest = .ok (rs.map RecvResult.msg ++ ⟨none, e⟩ :: rest)) :
    GetPeers api gobgp n = .panicked .nilDereference n := by
  unfold peerRequest at h
  simp [GetPeers, h, recvPeers_nil]

/-- A `Recv()` that reports an error together with a response that is not nil does not
stop either drain loop: the record is appended and the loop goes on. -/
theorem recv_error_with_response (r : ListPeerResponse) (d : ListPathResponse) (e : GoError)
    (rest1 : RecvStream ListPeerResponse) (rest2 : RecvStream ListPathResponse)
    (peers : List (Option Peer)) (rib : List Destination) :
    recvPeers (⟨some r, some e⟩ :: rest1) peers = recvPeers rest1 (peers ++ [r.Peer]) ∧
    recvPaths (⟨some d, some e⟩ :: rest2) rib = recvPaths rest2 (rib ++ [d.Destination]) :=
  ⟨rfl, rfl⟩

/-- C7 fails on the code: with the two address families IP and IP6 in the AFI table and
(GLOBAL, SAFI_UNICAST) enabled, one call issues one request per AFI value and appends
two samples that carry the same pair of label values. -/
theorem GetRibCounters_duplicate_labels :
    GetRibCounters twoAfiApi emptyRibClient node1 = .returned { node1 with
      listPathSent := [⟨0, ⟨1, 1⟩⟩, ⟨0, ⟨2, 1⟩⟩],
      metrics := [⟨.routerRibDestinations, 0, ["global", "safi_unicast"]⟩,
                  ⟨.routerRibDestinations, 0, ["global", "safi_unicast"]⟩] } ∧
    ¬ ((GetRibCounters twoAfiApi emptyRibClient node1).node.metrics.map
        (fun m => m.labelValues)).Nodup := by
  decide

/-- C8 fails on the code: when the first `Recv()` on the stream reports an error other
than end-of-data, with the nil response that goes with it, `GetPeers` panics on
`_resp.Peer` before it has appended the peer-count sample, and `GetRibCounters` panics on
`_path.Destination` before it has appended the RIB-size sample. -/
theorem Recv_error_panics :
    GetPeers specApi recvErrorClient node0 = .panicked .nilDereference node0 ∧
    GetRibCounters specApi recvErrorClient node0 =
      .panicked .nilDereference { node0 with listPathSent := [⟨0, ⟨1, 1⟩⟩] } := by
  decide

/-- The two combinations of the spec's scenario, handled one after the other by the
innermost loop body: the GLOBAL/ipv4-unicast query returns three destinations and the
LOCAL/ipv6-unicast query fails; one sample is appended and the error counter is 1. -/
theorem ribAfiBody_scenario :
    forRange [("GLOBAL", "ipv4-unicast", 1), ("LOCAL", "ipv6-unicast", 2)]
        (ribComboBody specApi ribClient) node0 = .returned { node0 with
      listPathSent := [⟨0, ⟨1, 1⟩⟩, ⟨1, ⟨2, 2⟩⟩],
      errors := 1,
      metrics := [⟨.routerRibDestinations, 3, ["global", "ipv4-unicast"]⟩] } := by
  decide

end GobgpExporter
